import Mathlib

/-!
Verification development for the ludwig repository slice consisting of
`ludwig/marshmallow/marshmallow_schema_utils.py` and `ludwig/utils/tf_utils.py`.

The Python functions are shallowly embedded: Python values that the config
builders inspect at runtime are modelled by the inductive `PyVal`
(`None`, `str`, `int`, `float` — floats carried as rationals, since only
ordering and equality of numeric values matter to the builders), fallible
functions return `Except`, and the process-global TensorFlow initialization
state is threaded explicitly as a `TFState` value.
-/

/-- A Python runtime value as inspected by the schema builders:
the null sentinel, a string, an int, or a float (carried as a rational). -/
inductive PyVal where
  | none
  | str (s : String)
  | int (n : Int)
  | float (q : Rat)
  deriving DecidableEq, Repr

/-- Python `isinstance(v, str)`. -/
def PyVal.isStr : PyVal → Bool
  | PyVal.str _ => true
  | _ => false

/-- Python `isinstance(v, int)` (Lean-side model; Python `bool` is out of scope). -/
def PyVal.isInt : PyVal → Bool
  | PyVal.int _ => true
  | _ => false

/-- Python `isinstance(v, float)`. -/
def PyVal.isFloat : PyVal → Bool
  | PyVal.float _ => true
  | _ => false

/-- Numeric value of a `PyVal.int` or `PyVal.float`, as a rational. -/
def PyVal.toRat : PyVal → Rat
  | PyVal.int n => (n : Rat)
  | PyVal.float q => q
  | _ => 0

/-- Error kinds raised by `StringOptions`
(all are `marshmallow.ValidationError` in the source, distinguished here
by their messages). -/
inductive SErr where
  | emptyOptions
  | defaultNotString
  | defaultNotAllowed
  deriving DecidableEq, Repr

/-- The field descriptor returned by `StringOptions`: the option list that
`validate.OneOf` will check against, the recorded default, and `allow_none`. -/
structure StrField where
  options : List PyVal
  default : PyVal
  allowNone : Bool
  deriving DecidableEq, Repr

/-- A heap of Python list objects, addressed by `Nat`; `options += [None]`
in `StringOptions` mutates the caller's list object in place, which the
embedding renders as an update of the addressed cell. -/
abbrev PyHeap := List (List PyVal)

/-- `StringOptions(options, default=..., nullable=...)` from
`marshmallow_schema_utils.py`, with the caller's `options` list living in
heap cell `r`. Returns the result together with the heap after the call
(the heap changes exactly when the source executes `options += [None]`). -/
def StringOptionsImp (h : PyHeap) (r : Nat) (default : PyVal) (nullable : Bool) :
    Except SErr StrField × PyHeap :=
  let options := h.getD r []
  if options.length ≤ 0 then
    (Except.error SErr.emptyOptions, h)
  else if default ≠ PyVal.none ∧ default.isStr = false then
    (Except.error SErr.defaultNotString, h)
  else
    let doAppend := nullable = true ∧ PyVal.none ∉ options
    let options1 := if doAppend then options ++ [PyVal.none] else options
    let h1 := if doAppend then h.set r options1 else h
    if default ∉ options1 then
      (Except.error SErr.defaultNotAllowed, h1)
    else
      (Except.ok { options := options1, default := default, allowNone := nullable }, h1)

/-- `StringOptions` viewed as a pure function of the passed list value
(the call on a one-cell heap, keeping only the result). -/
def StringOptions (options : List PyVal) (default : PyVal) (nullable : Bool) :
    Except SErr StrField :=
  (StringOptionsImp [options] 0 default nullable).1

/-- The option list that `validate.OneOf` ends up with: `options` with the
null sentinel appended when the field is nullable and the sentinel is absent. -/
def resolvedOptions (options : List PyVal) (nullable : Bool) : List PyVal :=
  if nullable = true ∧ PyVal.none ∉ options then options ++ [PyVal.none] else options

/-- The single error kind of the numeric-range builders
(`marshmallow.ValidationError` with message "Invalid default: ..."). -/
inductive VErr where
  | invalidDefault
  deriving DecidableEq, Repr

/-- `marshmallow.validate.Range(min=rmin, max=rmax)` applied to an integer:
`true` when the value passes (bounds are inclusive; an absent bound is
unchecked). -/
def validateRangeInt (rmin rmax : Option Int) (x : Int) : Bool :=
  !((rmin.elim false fun m => decide (x < m)) || (rmax.elim false fun m => decide (m < x)))

/-- `marshmallow.validate.Range` applied to a float (or int) value. -/
def validateRangeRat (rmin rmax : Option Rat) (x : Rat) : Bool :=
  !((rmin.elim false fun m => decide (x < m)) || (rmax.elim false fun m => decide (m < x)))

/-- Field descriptor returned by the integer builders: recorded default,
the `validate.Range` bounds, and `allow_none` (`default is None` in the
source). -/
structure IntField where
  default : Option Int
  rmin : Option Int
  rmax : Option Int
  allowNone : Bool
  deriving DecidableEq, Repr

/-- Field descriptor returned by the float builders. -/
structure FloatField where
  default : Option Rat
  rmin : Option Rat
  rmax : Option Rat
  allowNone : Bool
  deriving DecidableEq, Repr

/-- `PositiveInteger(default)`: validates a non-null default against
`Range(min=1)`, raising `ValidationError` when it fails. -/
def PositiveInteger (default : Option Int) : Except VErr IntField :=
  match default with
  | Option.none => Except.ok { default := Option.none, rmin := some 1, rmax := Option.none, allowNone := true }
  | some d =>
    if validateRangeInt (some 1) Option.none d then
      Except.ok { default := some d, rmin := some 1, rmax := Option.none, allowNone := false }
    else
      Except.error VErr.invalidDefault

/-- `NonNegativeInteger(default)`: validates a non-null default against
`Range(min=0)`. -/
def NonNegativeInteger (default : Option Int) : Except VErr IntField :=
  match default with
  | Option.none => Except.ok { default := Option.none, rmin := some 0, rmax := Option.none, allowNone := true }
  | some d =>
    if validateRangeInt (some 0) Option.none d then
      Except.ok { default := some d, rmin := some 0, rmax := Option.none, allowNone := false }
    else
      Except.error VErr.invalidDefault

/-- `IntegerRange(default, min=..., max=...)`: validates a non-null default
against `Range` built from the keyword bounds. -/
def IntegerRange (rmin rmax : Option Int) (default : Option Int) : Except VErr IntField :=
  match default with
  | Option.none => Except.ok { default := Option.none, rmin := rmin, rmax := rmax, allowNone := true }
  | some d =>
    if validateRangeInt rmin rmax d then
      Except.ok { default := some d, rmin := rmin, rmax := rmax, allowNone := false }
    else
      Except.error VErr.invalidDefault

/-- `FloatRange(default, min=..., max=...)`: validates a non-null default
(a float or an int in the source, both carried as `Rat` here) against
`Range` built from the keyword bounds. -/
def FloatRange (rmin rmax : Option Rat) (default : Option Rat) : Except VErr FloatField :=
  match default with
  | Option.none => Except.ok { default := Option.none, rmin := rmin, rmax := rmax, allowNone := true }
  | some d =>
    if validateRangeRat rmin rmax d then
      Except.ok { default := some d, rmin := rmin, rmax := rmax, allowNone := false }
    else
      Except.error VErr.invalidDefault

/-- Spec-side reading of "the default lies within the declared [min, max]
bound" for integers, stated independently of the `validate.Range`
translation. -/
def inBoundsInt (rmin rmax : Option Int) (d : Int) : Prop :=
  (∀ m, rmin = some m → m ≤ d) ∧ (∀ m, rmax = some m → d ≤ m)

/-- Spec-side reading of the bound for floats. -/
def inBoundsRat (rmin rmax : Option Rat) (d : Rat) : Prop :=
  (∀ m, rmin = some m → m ≤ d) ∧ (∀ m, rmax = some m → d ≤ m)

instance (rmin rmax : Option Int) (d : Int) : Decidable (inBoundsInt rmin rmax d) := by
  unfold inBoundsInt; infer_instance

instance (rmin rmax : Option Rat) (d : Rat) : Decidable (inBoundsRat rmin rmax d) := by
  unfold inBoundsRat; infer_instance

/-- Error kinds surfaced by the composite numeric-or-string field: the three
`ValidationError`s of `_deserialize` and the `AssertionError` of
`_jsonschema_type_mapping`. -/
inductive NErr where
  | rangeError
  | stringNotOption
  | typeError
  | noneConflictAssertion
  deriving DecidableEq, Repr

/-- The field descriptor returned by `NumericOrStringOptionsField`: the
closed-over constructor arguments together with `allow_none = nullable`
and the recorded default. -/
structure NumOrStrField where
  options : List PyVal
  nullable : Bool
  default : PyVal
  isInteger : Bool
  min? : Option Int
  max? : Option Int
  minExclusive? : Option Int
  maxExclusive? : Option Int
  deriving DecidableEq, Repr

/-- `NumericOrStringOptionsField(...)` from `marshmallow_schema_utils.py`.
The Python function body only defines the nested field class and returns
the descriptor: it performs no validation of its own, so construction
always succeeds. -/
def NumericOrStringOptionsField (options : List PyVal) (nullable : Bool)
    (default : PyVal) (isInteger : Bool)
    (min? max? minExclusive? maxExclusive? : Option Int) :
    Except NErr NumOrStrField :=
  Except.ok
    { options := options, nullable := nullable, default := default,
      isInteger := isInteger, min? := min?, max? := max?,
      minExclusive? := minExclusive?, maxExclusive? := maxExclusive? }

/-- `IntegerOrStringOptionsField(...)`: forces `is_integer = True` and
delegates to `NumericOrStringOptionsField`. -/
def IntegerOrStringOptionsField (options : List PyVal) (nullable : Bool)
    (default : PyVal) (_isInteger : Bool)
    (min? max? minExclusive? maxExclusive? : Option Int) :
    Except NErr NumOrStrField :=
  NumericOrStringOptionsField options nullable default true
    min? max? minExclusive? maxExclusive?

/-- `IntegerOrStringOptionsField._deserialize`: the schema-load path for a
single value through the composite field. -/
def NOSF_deserialize (f : NumOrStrField) (value : PyVal) : Except NErr PyVal :=
  if (f.isInteger = true ∧ value.isInt = true) ∨ value.isFloat = true then
    let v := value.toRat
    if (f.min?.elim false fun m => decide (v < (m : Rat))) ||
       (f.minExclusive?.elim false fun m => decide (v ≤ (m : Rat))) ||
       (f.max?.elim false fun m => decide ((m : Rat) < v)) ||
       (f.maxExclusive?.elim false fun m => decide ((m : Rat) ≤ v)) then
      Except.error NErr.rangeError
    else
      Except.ok value
  else if value.isStr = true then
    if value ∈ f.options then Except.ok value else Except.error NErr.stringNotOption
  else
    Except.error NErr.typeError

/-- The JSON-Schema fragment built by
`IntegerOrStringOptionsField._jsonschema_type_mapping`. -/
structure NOSFSchema where
  numericInteger : Bool
  minimum : Option Int
  maximum : Option Int
  exclusiveMinimum : Option Int
  exclusiveMaximum : Option Int
  enum : List PyVal
  includesNull : Bool
  deriving DecidableEq, Repr

/-- `IntegerOrStringOptionsField._jsonschema_type_mapping`: raises an
`AssertionError` when the option list contains the null sentinel but
`allow_none` is false; otherwise builds the oneOf schema, removing the
first null sentinel from the enumerated options. -/
def NOSF_jsonschemaTypeMapping (f : NumOrStrField) : Except NErr NOSFSchema :=
  if PyVal.none ∈ f.options ∧ f.nullable = false then
    Except.error NErr.noneConflictAssertion
  else
    Except.ok
      { numericInteger := f.isInteger, minimum := f.min?, maximum := f.max?,
        exclusiveMinimum := f.minExclusive?, exclusiveMaximum := f.maxExclusive?,
        enum := f.options.erase PyVal.none, includesNull := f.nullable }

/-- The guard from `get_custom_schema_from_marshmallow_class`:
Python `parsed_torch[prop]["description"] is not None or
parsed_torch[prop]["description"] != ""`, with the description modelled as
`Option String` (`Option.none` for Python `None`). -/
def torchDescGuard (d : Option String) : Bool :=
  decide (d ≠ Option.none) || decide (d ≠ some "")

/-- The full fallback condition of the torch-documentation branch:
`desc == "" and parsed_torch is not None and prop in parsed_torch and
(guard)`, with `parsed_torch` modelled as an optional association list from
property name to parsed description. -/
def torchFallbackTaken (desc : String)
    (parsedTorch : Option (List (String × Option String))) (prop : String) : Bool :=
  decide (desc = "") &&
  match parsedTorch with
  | Option.none => false
  | some pt =>
    match pt.lookup prop with
    | Option.none => false
    | some d => torchDescGuard d

/-- `tf.abs` on an integer entry. -/
def tfAbs (x : Int) : Int := if x < 0 then -x else x

/-- `tf.sign` on an integer entry. -/
def tfSign (x : Int) : Int := if 0 < x then 1 else if x < 0 then -1 else 0

/-- `tf.reduce_max` along the innermost axis. TensorFlow leaves the
reduction of an empty axis undefined for this use (it yields the type's
lowest value); the embedding returns the junk value 0 there, and every
theorem below assumes non-empty feature vectors. -/
def tfReduceMax : List Int → Int
  | [] => 0
  | x :: xs => xs.foldl max x

/-- `sequence_length_2D(sequence)` from `tf_utils.py`: per row, sum of
`sign(abs(x))` over the timesteps. -/
def sequence_length_2D (sequence : List (List Int)) : List Int :=
  sequence.map fun row => (row.map fun x => tfSign (tfAbs x)).sum

/-- `sequence_length_3D(sequence)` from `tf_utils.py`: per example, sum of
`sign(reduce_max(abs(timestep)))` over the timestep vectors. -/
def sequence_length_3D (sequence : List (List (List Int))) : List Int :=
  sequence.map fun ex => (ex.map fun ts => tfSign (tfReduceMax (ts.map tfAbs))).sum

/-- The `gpus` argument of `initialize_tensorflow`: Python `None`, an int,
a comma-separated string, or a list of ints. -/
inductive GpusArg where
  | noneArg
  | intArg (i : Int)
  | strArg (s : String)
  | listArg (l : List Int)
  deriving DecidableEq, Repr

/-- The horovod handle, reduced to the two methods the function calls. -/
structure Horovod where
  localSize : Nat
  localRank : Nat
  deriving DecidableEq, Repr

/-- The tuple recorded in the module-global `_TF_INIT_PARAMS`:
`(gpus, gpu_memory_limit, allow_parallel_threads, use_horovod)`. -/
structure ParamTuple where
  gpus : GpusArg
  gpuMemoryLimit : Option Nat
  allowParallelThreads : Bool
  useHorovod : Bool
  deriving DecidableEq, Repr

/-- The process-wide TensorFlow state touched by `initialize_tensorflow`:
the recorded init-params global plus the framework configuration it sets.
Physical GPUs are identified by their index in `tf.config.list_physical_devices`;
`visibleGpus = some l` records a `set_visible_devices` call with devices `l`. -/
structure TFState where
  initParams : Option ParamTuple
  intraOpThreads : Option Nat
  interOpThreads : Option Nat
  visibleGpus : Option (List Nat)
  memoryGrowth : List Nat
  memoryLimits : List (Nat × Nat)
  deriving DecidableEq, Repr

/-- Warnings `initialize_tensorflow` can emit. -/
inductive TfWarning where
  | alreadyInitialized
  | horovodGpuDisabled
  deriving DecidableEq, Repr

/-- Exceptions the first-call path can raise: `int(g)` on a malformed
string (`ValueError`) or `gpu_devices[g]` out of range (`IndexError`). -/
inductive TfErr where
  | valueError
  | indexError
  deriving DecidableEq, Repr

/-- Python `int(g)` on a string: strips surrounding whitespace, then parses
an optionally signed decimal numeral; raises `ValueError` otherwise. -/
def pyInt (s : String) : Option Int := s.trim.toInt?

/-- Python list indexing `l[g]` with a possibly negative index, on a list of
length `n` (returning the positive index selected, `Option.none` for
`IndexError`). -/
def pyIndex (n : Nat) (g : Int) : Option Nat :=
  if 0 ≤ g ∧ g < (n : Int) then some g.toNat
  else if 0 ≤ g + (n : Int) ∧ g < 0 then some (g + (n : Int)).toNat
  else Option.none

/-- `initialize_tensorflow(gpus, gpu_memory_limit, allow_parallel_threads,
horovod)` from `tf_utils.py`, over an explicit state. `numGpus` is the
environment's answer to `tf.config.list_physical_devices("GPU")`. Returns
the new state and the warnings emitted, or the exception raised. -/
def initialize_tensorflow (numGpus : Nat) (gpus : GpusArg)
    (gpuMemoryLimit : Option Nat) (allowParallelThreads : Bool)
    (horovod : Option Horovod) (s : TFState) :
    Except TfErr (TFState × List TfWarning) :=
  let useHorovod := horovod.isSome
  let paramTuple : ParamTuple :=
    { gpus := gpus, gpuMemoryLimit := gpuMemoryLimit,
      allowParallelThreads := allowParallelThreads, useHorovod := useHorovod }
  match s.initParams with
  | some recorded =>
    if recorded ≠ paramTuple then
      Except.ok (s, [TfWarning.alreadyInitialized])
    else
      Except.ok (s, [])
  | Option.none =>
    let threads := if allowParallelThreads then 0 else 1
    let s1 := { s with intraOpThreads := some threads, interOpThreads := some threads }
    let hvdStep : GpusArg × List TfWarning :=
      match horovod, gpus with
      | some hvd, GpusArg.noneArg =>
        if 0 < numGpus ∧ numGpus < hvd.localSize then
          (GpusArg.listArg [-1], [TfWarning.horovodGpuDisabled])
        else
          (GpusArg.listArg [Int.ofNat hvd.localRank], [])
      | _, _ => (gpus, [])
    let gpus1 := hvdStep.1
    let warns := hvdStep.2
    let gpusNorm : Except TfErr (Option (List Int)) :=
      match gpus1 with
      | GpusArg.noneArg => Except.ok Option.none
      | GpusArg.intArg i => Except.ok (some [i])
      | GpusArg.strArg str =>
        match (str.trim.splitOn ",").mapM pyInt with
        | some l => Except.ok (some l)
        | Option.none => Except.error TfErr.valueError
      | GpusArg.listArg l => Except.ok (some l)
    match gpusNorm with
    | Except.error e => Except.error e
    | Except.ok gpus2 =>
      -- `if gpus and len(gpus) == 1 and gpus[0] == -1` (None and [] are falsy)
      if gpus2.elim false fun l => decide (l ≠ [] ∧ l.length = 1 ∧ l.headD 0 = -1) then
        let s2 := { s1 with visibleGpus := some [] }
        Except.ok ({ s2 with initParams := some paramTuple }, warns)
      else
        let s2 :=
          { s1 with
            memoryGrowth := List.range numGpus,
            memoryLimits :=
              match gpuMemoryLimit with
              | some limit => (List.range numGpus).map fun g => (g, limit)
              | Option.none => s1.memoryLimits }
        -- `if gpus and gpu_devices:`
        match gpus2 with
        | some l =>
          if l ≠ [] ∧ 0 < numGpus then
            match l.mapM (pyIndex numGpus) with
            | some localDevices =>
              Except.ok ({ s2 with visibleGpus := some localDevices,
                                   initParams := some paramTuple }, warns)
            | Option.none => Except.error TfErr.indexError
          else
            Except.ok ({ s2 with initParams := some paramTuple }, warns)
        | Option.none =>
          Except.ok ({ s2 with initParams := some paramTuple }, warns)

/-! ### Helper lemmas -/

theorem torchDescGuard_true (d : Option String) : torchDescGuard d = true := by
  cases d with
  | none => simp [torchDescGuard]
  | some s => simp [torchDescGuard]

theorem tfSign_tfAbs_of_ne_zero (x : Int) (hx : x ≠ 0) : tfSign (tfAbs x) = 1 := by
  unfold tfSign tfAbs
  rcases lt_trichotomy x 0 with h | h | h
  · simp [h, neg_pos.mpr h]
  · exact absurd h hx
  · simp [not_lt.mpr (le_of_lt h), h]

theorem sum_map_all_one {α : Type} (f : α → Int) :
    ∀ (l : List α), (∀ x ∈ l, f x = 1) → (l.map f).sum = l.length := by
  intro l
  induction l with
  | nil => simp
  | cons a t ih =>
    intro hall
    have ha : f a = 1 := hall a (List.mem_cons_self a t)
    have ht := ih fun x hx => hall x (List.mem_cons_of_mem a hx)
    simp [ha, ht]
    omega

theorem foldl_max_ge (b : Int) : ∀ (t : List Int) (a : Int), (b ≤ a ∨ b ∈ t) → b ≤ t.foldl max a := by
  intro t
  induction t with
  | nil =>
    intro a h
    rcases h with h | h
    · simpa using h
    · simp at h
  | cons c t ih =>
    intro a h
    rcases h with h | h
    · exact ih (max a c) (Or.inl (le_trans h (le_max_left a c)))
    · rcases List.mem_cons.mp h with h | h
      · exact ih (max a c) (Or.inl (by rw [h]; exact le_max_right a c))
      · exact ih (max a c) (Or.inr h)

theorem foldl_max_le (b : Int) : ∀ (t : List Int) (a : Int),
    a ≤ b → (∀ x ∈ t, x ≤ b) → t.foldl max a ≤ b := by
  intro t
  induction t with
  | nil => intro a ha _; simpa using ha
  | cons c t ih =>
    intro a ha hall
    exact ih (max a c) (max_le ha (hall c (List.mem_cons_self c t)))
      fun x hx => hall x (List.mem_cons_of_mem c hx)

theorem tfReduceMax_mem_le (l : List Int) (x : Int) (hx : x ∈ l) : x ≤ tfReduceMax l := by
  cases l with
  | nil => simp at hx
  | cons a t =>
    unfold tfReduceMax
    rcases List.mem_cons.mp hx with h | h
    · exact foldl_max_ge x t a (Or.inl (le_of_eq h))
    · exact foldl_max_ge x t a (Or.inr h)

theorem tfReduceMax_le_of_all (l : List Int) (b : Int) (hne : l ≠ [])
    (hall : ∀ x ∈ l, x ≤ b) : tfReduceMax l ≤ b := by
  cases l with
  | nil => exact absurd rfl hne
  | cons a t =>
    unfold tfReduceMax
    exact foldl_max_le b t a (hall a (List.mem_cons_self a t))
      fun x hx => hall x (List.mem_cons_of_mem a hx)

theorem timestep_sign_one (ts : List Int) (hx : ∃ x ∈ ts, x ≠ 0) :
    tfSign (tfReduceMax (ts.map tfAbs)) = 1 := by
  obtain ⟨x, hmem, hne⟩ := hx
  have habs : tfAbs x ∈ ts.map tfAbs := List.mem_map_of_mem tfAbs hmem
  have hpos : 0 < tfAbs x := by
    unfold tfAbs
    rcases lt_trichotomy x 0 with h | h | h
    · rw [if_pos h]; omega
    · exact absurd h hne
    · rw [if_neg (not_lt.mpr (le_of_lt h))]; omega
  have hle := tfReduceMax_mem_le (ts.map tfAbs) (tfAbs x) habs
  unfold tfSign
  simp [lt_of_lt_of_le hpos hle]

theorem timestep_sign_zero (dim : Nat) :
    tfSign (tfReduceMax ((List.replicate dim (0 : Int)).map tfAbs)) = 0 := by
  have hmap : (List.replicate dim (0 : Int)).map tfAbs = List.replicate dim 0 := by
    simp [List.map_replicate, tfAbs]
  rw [hmap]
  cases dim with
  | zero => rfl
  | succ n =>
    have h1 : tfReduceMax (List.replicate (n + 1) (0 : Int)) ≤ 0 := by
      apply tfReduceMax_le_of_all _ _ (by simp)
      intro x hx
      simp [List.eq_of_mem_replicate hx]
    have h2 : (0 : Int) ≤ tfReduceMax (List.replicate (n + 1) (0 : Int)) := by
      apply tfReduceMax_mem_le
      simp [List.mem_replicate]
    have h3 : tfReduceMax (List.replicate (n + 1) (0 : Int)) = 0 := le_antisymm h1 h2
    simp [tfSign, h3]

theorem row2D_length (pre : List Int) (pad : Nat) (hpre : ∀ x ∈ pre, x ≠ 0) :
    ((pre ++ List.replicate pad 0).map fun x => tfSign (tfAbs x)).sum = (pre.length : Int) := by
  rw [List.map_append, List.sum_append]
  have h1 : ((pre.map fun x => tfSign (tfAbs x)).sum : Int) = pre.length :=
    sum_map_all_one _ pre fun x hx => tfSign_tfAbs_of_ne_zero x (hpre x hx)
  have h2 : (((List.replicate pad (0 : Int)).map fun x => tfSign (tfAbs x)).sum : Int) = 0 := by
    simp [List.map_replicate, tfSign, tfAbs]
  rw [h1, h2, add_zero]

theorem row3D_length (pre : List (List Int)) (pad dim : Nat)
    (hpre : ∀ ts ∈ pre, ∃ x ∈ ts, x ≠ 0) :
    ((pre ++ List.replicate pad (List.replicate dim (0 : Int))).map
        fun ts : List Int => tfSign (tfReduceMax (ts.map tfAbs))).sum = (pre.length : Int) := by
  rw [List.map_append, List.sum_append]
  have h1 : ((pre.map fun ts : List Int => tfSign (tfReduceMax (ts.map tfAbs))).sum : Int)
      = pre.length :=
    sum_map_all_one _ pre fun ts hts => timestep_sign_one ts (hpre ts hts)
  have h2 : (((List.replicate pad (List.replicate dim (0 : Int))).map
      fun ts : List Int => tfSign (tfReduceMax (ts.map tfAbs))).sum : Int) = 0 := by
    rw [List.map_replicate, timestep_sign_zero dim]
    simp
  rw [h1, h2, add_zero]

/-! ### Claim theorems -/

/-- Claim C5: on a padded batch — each example a block of non-padding
timesteps followed by padding, where a padding timestep is the scalar zero
(2D) or an all-zero feature vector (3D) and a non-padding timestep is
non-zero (2D) or has some non-zero feature (3D) — `sequence_length_2D` and
`sequence_length_3D` return one integer per example equal to the example's
(pre-padding) length; in particular an example with 3 non-zero timesteps
out of a padded length of 5 gets length 3 (see the witness). -/
theorem sequence_length_padded_batch :
    (∀ (batch : List (List Int × Nat)),
      (∀ p ∈ batch, ∀ x ∈ p.1, x ≠ 0) →
      sequence_length_2D (batch.map fun p => p.1 ++ List.replicate p.2 0)
        = batch.map fun p => (p.1.length : Int))
    ∧ (∀ (dim : Nat) (batch : List (List (List Int) × Nat)), 0 < dim →
      (∀ p ∈ batch, ∀ ts ∈ p.1, ts.length = dim ∧ ∃ x ∈ ts, x ≠ 0) →
      sequence_length_3D (batch.map fun p => p.1 ++ List.replicate p.2 (List.replicate dim 0))
        = batch.map fun p => (p.1.length : Int)) := by
  constructor
  · intro batch hall
    unfold sequence_length_2D
    rw [List.map_map]
    apply List.map_congr_left
    intro p hp
    exact row2D_length p.1 p.2 (hall p hp)
  · intro dim batch _ hall
    unfold sequence_length_3D
    rw [List.map_map]
    apply List.map_congr_left
    intro p hp
    exact row3D_length p.1 p.2 dim fun ts hts => (hall p hp ts hts).2

/-- Witness for C5: concrete padded batches; the last 2D example is
`[5, 6, 7, 0, 0]` — 3 non-zero timesteps out of a padded length of 5 —
and gets length 3, likewise the last 3D example. -/
theorem sequence_length_padded_batch_witness :
    sequence_length_2D [[9], [1, 1, 0], [5, 6, 7, 0, 0]] = [1, 2, 3]
    ∧ sequence_length_3D [[[1, 0], [0, 0]], [[2, 3], [0, 4], [5, 0], [0, 0], [0, 0]]] = [1, 3] := by
  constructor
  · have h := sequence_length_padded_batch.1 [([9], 0), ([1, 1], 1), ([5, 6, 7], 2)] (by decide)
    simpa using h
  · have h := sequence_length_padded_batch.2 2 [([[1, 0]], 1), ([[2, 3], [0, 4], [5, 0]], 2)]
      (by decide) (by decide)
    simpa using h

/-- Claim C7: the torch-documentation guard
`description is not None or description != ""` is true for every possible
description (None, empty, or non-empty), so the torch fallback in
`get_custom_schema_from_marshmallow_class` is taken exactly when the own
description is empty and the property appears in the torch docs, regardless
of the torch description's content. -/
theorem torch_guard_always_true_fallback :
    (∀ d : Option String, torchDescGuard d = true)
    ∧ (∀ (desc : String) (pt : List (String × Option String)) (prop : String),
        torchFallbackTaken desc (some pt) prop
          = (decide (desc = "") && (pt.lookup prop).isSome)) := by
  constructor
  · exact torchDescGuard_true
  · intro desc pt prop
    unfold torchFallbackTaken
    cases h : pt.lookup prop with
    | none => simp [h]
    | some d => simp [h, torchDescGuard_true d]

theorem validateRangeInt_iff (rmin rmax : Option Int) (d : Int) :
    validateRangeInt rmin rmax d = true ↔ inBoundsInt rmin rmax d := by
  unfold validateRangeInt inBoundsInt
  cases rmin <;> cases rmax <;> simp [not_lt]

theorem validateRangeRat_iff (rmin rmax : Option Rat) (d : Rat) :
    validateRangeRat rmin rmax d = true ↔ inBoundsRat rmin rmax d := by
  unfold validateRangeRat inBoundsRat
  cases rmin <;> cases rmax <;> simp [not_lt]

/-- Claim C2: for each numeric-range builder (`PositiveInteger`,
`NonNegativeInteger`, `IntegerRange`, `FloatRange`) with a non-null
default, construction raises the `ValidationError` when the default lies
outside the declared [min, max] bound, and succeeds with the field
descriptor carrying that default unchanged when it lies within. -/
theorem numeric_builders_default_bound (d : Int) (q : Rat)
    (lo hi : Option Int) (lo2 hi2 : Option Rat) :
    ((inBoundsInt (some 1) Option.none d →
        PositiveInteger (some d)
          = Except.ok { default := some d, rmin := some 1, rmax := Option.none, allowNone := false })
      ∧ (¬ inBoundsInt (some 1) Option.none d →
        PositiveInteger (some d) = Except.error VErr.invalidDefault))
    ∧ ((inBoundsInt (some 0) Option.none d →
        NonNegativeInteger (some d)
          = Except.ok { default := some d, rmin := some 0, rmax := Option.none, allowNone := false })
      ∧ (¬ inBoundsInt (some 0) Option.none d →
        NonNegativeInteger (some d) = Except.error VErr.invalidDefault))
    ∧ ((inBoundsInt lo hi d →
        IntegerRange lo hi (some d)
          = Except.ok { default := some d, rmin := lo, rmax := hi, allowNone := false })
      ∧ (¬ inBoundsInt lo hi d →
        IntegerRange lo hi (some d) = Except.error VErr.invalidDefault))
    ∧ ((inBoundsRat lo2 hi2 q →
        FloatRange lo2 hi2 (some q)
          = Except.ok { default := some q, rmin := lo2, rmax := hi2, allowNone := false })
      ∧ (¬ inBoundsRat lo2 hi2 q →
        FloatRange lo2 hi2 (some q) = Except.error VErr.invalidDefault)) := by
  refine ⟨⟨?_, ?_⟩, ⟨?_, ?_⟩, ⟨?_, ?_⟩, ⟨?_, ?_⟩⟩
  · intro h
    simp only [PositiveInteger]
    rw [if_pos ((validateRangeInt_iff _ _ _).mpr h)]
  · intro h
    simp only [PositiveInteger]
    rw [if_neg (fun hv => h ((validateRangeInt_iff _ _ _).mp hv))]
  · intro h
    simp only [NonNegativeInteger]
    rw [if_pos ((validateRangeInt_iff _ _ _).mpr h)]
  · intro h
    simp only [NonNegativeInteger]
    rw [if_neg (fun hv => h ((validateRangeInt_iff _ _ _).mp hv))]
  · intro h
    simp only [IntegerRange]
    rw [if_pos ((validateRangeInt_iff _ _ _).mpr h)]
  · intro h
    simp only [IntegerRange]
    rw [if_neg (fun hv => h ((validateRangeInt_iff _ _ _).mp hv))]
  · intro h
    simp only [FloatRange]
    rw [if_pos ((validateRangeRat_iff _ _ _).mpr h)]
  · intro h
    simp only [FloatRange]
    rw [if_neg (fun hv => h ((validateRangeRat_iff _ _ _).mp hv))]

/-- Witness for C2: each builder exercised on an in-range and an out-of-range
concrete default. -/
theorem numeric_builders_default_bound_witness :
    PositiveInteger (some 3)
      = Except.ok { default := some 3, rmin := some 1, rmax := Option.none, allowNone := false }
    ∧ PositiveInteger (some 0) = Except.error VErr.invalidDefault
    ∧ NonNegativeInteger (some 0)
      = Except.ok { default := some 0, rmin := some 0, rmax := Option.none, allowNone := false }
    ∧ NonNegativeInteger (some (-1)) = Except.error VErr.invalidDefault
    ∧ IntegerRange (some 2) (some 5) (some 4)
      = Except.ok { default := some 4, rmin := some 2, rmax := some 5, allowNone := false }
    ∧ IntegerRange (some 2) (some 5) (some 7) = Except.error VErr.invalidDefault
    ∧ FloatRange (some 0) (some 1) (some 1)
      = Except.ok { default := some 1, rmin := some 0, rmax := some 1, allowNone := false }
    ∧ FloatRange (some 0) (some 1) (some 2) = Except.error VErr.invalidDefault :=
  ⟨(numeric_builders_default_bound 3 0 Option.none Option.none Option.none Option.none).1.1
      (by decide),
   (numeric_builders_default_bound 0 0 Option.none Option.none Option.none Option.none).1.2
      (by decide),
   (numeric_builders_default_bound 0 0 Option.none Option.none Option.none Option.none).2.1.1
      (by decide),
   (numeric_builders_default_bound (-1) 0 Option.none Option.none Option.none Option.none).2.1.2
      (by decide),
   (numeric_builders_default_bound 4 0 (some 2) (some 5) Option.none Option.none).2.2.1.1
      (by decide),
   (numeric_builders_default_bound 7 0 (some 2) (some 5) Option.none Option.none).2.2.1.2
      (by decide),
   (numeric_builders_default_bound 0 1 Option.none Option.none (some 0) (some 1)).2.2.2.1
      (by decide),
   (numeric_builders_default_bound 0 2 Option.none Option.none (some 0) (some 1)).2.2.2.2
      (by decide)⟩

/-- Claim C8: `StringOptions` raises a validation error if and only if the
options list is empty, or the default is non-null and not a string, or the
default is absent from the resolved option set; and in particular
`StringOptions([], default=None)` fails with the empty-options error. -/
theorem stringoptions_error_iff :
    (∀ (options : List PyVal) (default : PyVal) (nullable : Bool),
      (∃ e, StringOptions options default nullable = Except.error e)
        ↔ (options = [] ∨ (default ≠ PyVal.none ∧ default.isStr = false)
           ∨ default ∉ resolvedOptions options nullable))
    ∧ StringOptions [] PyVal.none true = Except.error SErr.emptyOptions := by
  constructor
  · intro options default nullable
    unfold StringOptions StringOptionsImp resolvedOptions
    simp only [List.getD_cons_zero]
    split_ifs with h1 h2 h3 <;> simp_all [List.length_eq_zero]
  · rfl

/-- Witness for C8: a non-string default on a non-empty option list is
rejected. -/
theorem stringoptions_error_iff_witness :
    ∃ e, StringOptions [PyVal.str "a"] (PyVal.int 3) true = Except.error e :=
  (stringoptions_error_iff.1 [PyVal.str "a"] (PyVal.int 3) true).mpr (by decide)

/-- Counterexample to C3 as stated: when the caller's options list already
contains the null sentinel twice, `StringOptions` with `nullable=True`
succeeds and the resolved option set carries the sentinel twice, not
exactly once (the source only guards the append, it never deduplicates). -/
theorem stringoptions_null_dup_cex :
    StringOptions [PyVal.str "a", PyVal.none, PyVal.none] PyVal.none true
      = Except.ok { options := [PyVal.str "a", PyVal.none, PyVal.none],
                    default := PyVal.none, allowNone := true }
    ∧ ([PyVal.str "a", PyVal.none, PyVal.none] : List PyVal).count PyVal.none ≠ 1 := by
  constructor
  · rfl
  · decide

/-- Claim C3 (amended): for every options list containing the null sentinel
at most once and every default for which `StringOptions` succeeds with
`nullable=True`, the resolved option set contains the null sentinel exactly
once — appended automatically when absent, not re-appended when present. -/
theorem stringoptions_null_once (options : List PyVal) (default : PyVal) (f : StrField)
    (hcount : options.count PyVal.none ≤ 1)
    (hok : StringOptions options default true = Except.ok f) :
    f.options.count PyVal.none = 1 := by
  unfold StringOptions StringOptionsImp at hok
  simp only [List.getD_cons_zero] at hok
  split_ifs at hok with h1 h2 h3 h4 <;> cases hok
  all_goals first
    | (show (options ++ [PyVal.none]).count PyVal.none = 1
       rw [List.count_append]
       have h0 : options.count PyVal.none = 0 := List.count_eq_zero.mpr h3.2
       simp [h0])
    | (show options.count PyVal.none = 1
       have hmem : PyVal.none ∈ options := by
         by_contra hx
         exact h3 ⟨trivial, hx⟩
       have hpos : 0 < options.count PyVal.none := List.count_pos_iff.mpr hmem
       omega)

/-- Witness for C3 (amended): the sentinel is appended once to `["a"]`. -/
theorem stringoptions_null_once_witness :
    ([PyVal.str "a"] : List PyVal).count PyVal.none ≤ 1
    ∧ ({ options := [PyVal.str "a", PyVal.none], default := PyVal.none,
         allowNone := true } : StrField).options.count PyVal.none = 1 :=
  ⟨by decide,
   stringoptions_null_once [PyVal.str "a"] PyVal.none
     { options := [PyVal.str "a", PyVal.none], default := PyVal.none, allowNone := true }
     (by decide) rfl⟩

/-- Counterexample to C10 as stated: the empty list contains no null
sentinel and is passed with `nullable=True`, yet the call raises the
empty-options error before reaching `options += [None]` and the caller's
list object is left unchanged — nothing is appended. -/
theorem stringoptions_inplace_cex :
    StringOptionsImp [[]] 0 PyVal.none true = (Except.error SErr.emptyOptions, [[]])
    ∧ ([] : List PyVal) ≠ [] ++ [PyVal.none] := by
  constructor
  · rfl
  · decide

/-- Claim C10 (amended): whenever execution reaches the nullable-append —
the caller's list (heap cell `r`) is non-empty, the default is null or a
string, and the list does not already contain the null sentinel — a
`nullable=True` call mutates the caller's list object in place, appending
the null sentinel as its last element (even when the call afterwards raises
the default-not-allowed error, as in the witness). -/
theorem stringoptions_mutates_inplace (h : PyHeap) (r : Nat) (default : PyVal)
    (hne : h.getD r [] ≠ [])
    (hd : default = PyVal.none ∨ default.isStr = true)
    (hn : PyVal.none ∉ h.getD r []) :
    (StringOptionsImp h r default true).2 = h.set r (h.getD r [] ++ [PyVal.none]) := by
  unfold StringOptionsImp
  have h1 : ¬ (h.getD r []).length ≤ 0 := by
    rcases hx : h.getD r [] with _ | ⟨a, t⟩
    · exact absurd hx hne
    · simp
  have h2 : ¬ (default ≠ PyVal.none ∧ default.isStr = false) := by
    rcases hd with hd | hd <;> simp [hd]
  rw [if_neg h1, if_neg h2]
  dsimp only
  split_ifs with hA hB
  all_goals first
  | rfl
  | exact absurd ⟨rfl, hn⟩ hA

/-- Witness for C10 (amended): calling with options `["a"]` and the
(invalid) default `"b"` still appends the sentinel to the caller's list. -/
theorem stringoptions_mutates_inplace_witness :
    (([[PyVal.str "a"]] : PyHeap).getD 0 [] ≠ [])
    ∧ (PyVal.str "b" = PyVal.none ∨ (PyVal.str "b").isStr = true)
    ∧ (PyVal.none ∉ ([[PyVal.str "a"]] : PyHeap).getD 0 [])
    ∧ (StringOptionsImp [[PyVal.str "a"]] 0 (PyVal.str "b") true).2
        = ([[PyVal.str "a"]] : PyHeap).set 0 ([PyVal.str "a"] ++ [PyVal.none]) :=
  ⟨by decide, by decide, by decide,
   stringoptions_mutates_inplace [[PyVal.str "a"]] 0 (PyVal.str "b")
     (by decide) (by decide) (by decide)⟩

/-- Counterexample to C6 as stated: an options list containing the null
sentinel, passed with `nullable=False`, raises nothing at
field-construction time (the builder returns normally) nor at schema-load
time (deserializing a valid value succeeds); the contradiction check lives
elsewhere (see the amended theorem). -/
theorem nosf_no_construction_error_cex :
    NumericOrStringOptionsField [PyVal.str "a", PyVal.none] false (PyVal.int 1) true
        Option.none Option.none Option.none Option.none
      = Except.ok { options := [PyVal.str "a", PyVal.none], nullable := false,
                    default := PyVal.int 1, isInteger := true, min? := Option.none,
                    max? := Option.none, minExclusive? := Option.none,
                    maxExclusive? := Option.none }
    ∧ NOSF_deserialize
        { options := [PyVal.str "a", PyVal.none], nullable := false,
          default := PyVal.int 1, isInteger := true, min? := Option.none,
          max? := Option.none, minExclusive? := Option.none,
          maxExclusive? := Option.none } (PyVal.int 1)
      = Except.ok (PyVal.int 1) := by
  constructor <;> rfl

/-- Claim C6 (amended): the None-versus-nullable contradiction for the
composite field is raised only when the JSON schema is generated
(`_jsonschema_type_mapping`), and as an `AssertionError`, not the
validation-error kind; construction performs no check and the schema-load
path can never surface this error. -/
theorem nosf_none_conflict_at_schema_gen (f : NumOrStrField)
    (hmem : PyVal.none ∈ f.options) (hnull : f.nullable = false) :
    NOSF_jsonschemaTypeMapping f = Except.error NErr.noneConflictAssertion
    ∧ ∀ v, NOSF_deserialize f v ≠ Except.error NErr.noneConflictAssertion := by
  constructor
  · unfold NOSF_jsonschemaTypeMapping
    rw [if_pos ⟨hmem, hnull⟩]
  · intro v
    unfold NOSF_deserialize
    split_ifs <;> simp
    split <;> simp

/-- Witness for C6 (amended): a concrete conflicted field raises the
assertion at schema-generation time. -/
theorem nosf_none_conflict_witness :
    PyVal.none ∈ ({ options := [PyVal.str "a", PyVal.none], nullable := false,
                    default := PyVal.int 1, isInteger := true, min? := Option.none,
                    max? := Option.none, minExclusive? := Option.none,
                    maxExclusive? := Option.none } : NumOrStrField).options
    ∧ NOSF_jsonschemaTypeMapping
        { options := [PyVal.str "a", PyVal.none], nullable := false,
          default := PyVal.int 1, isInteger := true, min? := Option.none,
          max? := Option.none, minExclusive? := Option.none,
          maxExclusive? := Option.none }
      = Except.error NErr.noneConflictAssertion :=
  ⟨by decide,
   (nosf_none_conflict_at_schema_gen
     { options := [PyVal.str "a", PyVal.none], nullable := false,
       default := PyVal.int 1, isInteger := true, min? := Option.none,
       max? := Option.none, minExclusive? := Option.none,
       maxExclusive? := Option.none } (by decide) rfl).1⟩

/-- Claim C1: once `initialize_tensorflow` has recorded an initialization
parameter tuple, a second call with a differing parameter tuple returns
without error, leaves the entire recorded configuration — visible devices,
memory settings, threading, and the recorded tuple itself — unchanged, and
emits exactly the already-initialized warning. -/
theorem tf_second_call_differing (numGpus : Nat) (gpus : GpusArg)
    (gml : Option Nat) (apt : Bool) (hvd : Option Horovod)
    (s : TFState) (p : ParamTuple)
    (hinit : s.initParams = some p)
    (hdiff : p ≠ { gpus := gpus, gpuMemoryLimit := gml,
                   allowParallelThreads := apt, useHorovod := hvd.isSome }) :
    initialize_tensorflow numGpus gpus gml apt hvd s
      = Except.ok (s, [TfWarning.alreadyInitialized]) := by
  unfold initialize_tensorflow
  rw [hinit]
  dsimp only
  rw [if_pos hdiff]

/-- Witness for C1: a process already initialized with `gpus=None` is
re-initialized with a GPU list; the state is untouched and the warning is
emitted. -/
theorem tf_second_call_differing_witness :
    initialize_tensorflow 1 (GpusArg.listArg [0]) Option.none true Option.none
      { initParams := some { gpus := GpusArg.noneArg, gpuMemoryLimit := Option.none,
                             allowParallelThreads := true, useHorovod := false },
        intraOpThreads := Option.none, interOpThreads := Option.none,
        visibleGpus := Option.none, memoryGrowth := [], memoryLimits := [] }
      = Except.ok
        ({ initParams := some { gpus := GpusArg.noneArg, gpuMemoryLimit := Option.none,
                                allowParallelThreads := true, useHorovod := false },
           intraOpThreads := Option.none, interOpThreads := Option.none,
           visibleGpus := Option.none, memoryGrowth := [], memoryLimits := [] },
         [TfWarning.alreadyInitialized]) :=
  tf_second_call_differing 1 (GpusArg.listArg [0]) Option.none true Option.none
    _ _ rfl (by decide)

/-- Claim C9: once `initialize_tensorflow` has recorded a parameter tuple,
a second call with the identical tuple returns immediately with no warning
and no change to any device, memory, or threading configuration. -/
theorem tf_second_call_identical (numGpus : Nat) (gpus : GpusArg)
    (gml : Option Nat) (apt : Bool) (hvd : Option Horovod) (s : TFState)
    (hinit : s.initParams
      = some { gpus := gpus, gpuMemoryLimit := gml,
               allowParallelThreads := apt, useHorovod := hvd.isSome }) :
    initialize_tensorflow numGpus gpus gml apt hvd s = Except.ok (s, []) := by
  unfold initialize_tensorflow
  rw [hinit]
  dsimp only
  rw [if_neg (fun hc => hc rfl)]

/-- Witness for C9: repeating the recorded call is a silent no-op. -/
theorem tf_second_call_identical_witness :
    initialize_tensorflow 1 GpusArg.noneArg Option.none true Option.none
      { initParams := some { gpus := GpusArg.noneArg, gpuMemoryLimit := Option.none,
                             allowParallelThreads := true, useHorovod := false },
        intraOpThreads := Option.none, interOpThreads := Option.none,
        visibleGpus := Option.none, memoryGrowth := [], memoryLimits := [] }
      = Except.ok
        ({ initParams := some { gpus := GpusArg.noneArg, gpuMemoryLimit := Option.none,
                                allowParallelThreads := true, useHorovod := false },
           intraOpThreads := Option.none, interOpThreads := Option.none,
           visibleGpus := Option.none, memoryGrowth := [], memoryLimits := [] },
         []) :=
  tf_second_call_identical 1 GpusArg.noneArg Option.none true Option.none _ rfl
